import Mathlib

/-!
Verification development for the pipedrive-mcp-server repository
(`src/index.ts`).  The definitions below are a shallow embedding of the
session/credential manager and the transport dispatch layer of the server:
JavaScript strings become `String`, the `sessions` `Map` becomes an
association list, stateful handlers become pure functions from a server
state to a result plus a new server state, and JavaScript truthiness of
optional strings is made explicit.  External collaborators (the `jsonwebtoken`
verifier, the MCP SDK transports, the upstream pipedrive client classes) are
modelled at their interface boundary, as the code of this repository only
observes them through those interfaces.
-/

namespace PipedriveMcp

/-- JavaScript truthiness of a `string | undefined` value: `undefined` and the
empty string are falsy, every other string is truthy. -/
def truthy : Option String → Bool
  | none => false
  | some s => s ≠ ""

/-- JavaScript `a || b` on `string | undefined` values: yields `a` when `a` is
truthy, otherwise `b`. -/
def jsOr (a b : Option String) : Option String :=
  if truthy a then a else b

/-- JavaScript `String.prototype.split` with a single-character separator:
`"a:b:c".split(':') = ["a","b","c"]`, `"".split(':') = [""]`, and empty
fields are kept (`"a::b"` gives `["a","","b"]`). -/
def jsSplitChar (sep : Char) : List Char → List (List Char)
  | [] => [[]]
  | c :: rest =>
    if c = sep then [] :: jsSplitChar sep rest
    else
      match jsSplitChar sep rest with
      | [] => [[c]]
      | p :: ps => (c :: p) :: ps

/-- JavaScript `Array.prototype.join` with a single-character separator. -/
def joinChar (sep : Char) : List (List Char) → List Char
  | [] => []
  | [p] => p
  | p :: ps => p ++ sep :: joinChar sep ps

/-- The set of characters matched by the JavaScript regular-expression class
`\s` (whitespace), as used in the `Bearer\s+` part of the header pattern. -/
def isJsWhitespace (c : Char) : Bool :=
  c = ' ' || c = '\t' || c = '\n' || c = '\r' ||
  c.val = 11 || c.val = 12 || c.val = 0xa0 || c.val = 0x1680 ||
  (0x2000 ≤ c.val && c.val ≤ 0x200a) ||
  c.val = 0x2028 || c.val = 0x2029 || c.val = 0x202f || c.val = 0x205f ||
  c.val = 0x3000 || c.val = 0xfeff

/-- The set of characters NOT matched by the JavaScript regular-expression
`.` atom (line terminators). -/
def isLineTerminator (c : Char) : Bool :=
  c = '\n' || c = '\r' || c.val = 0x2028 || c.val = 0x2029

/-- Backtracking search for the split point of `\s+(.+)$` inside the part of
the header following the `Bearer` keyword: starting from the greediest
whitespace run length `k` and working down to `1`, the capture is the first
suffix that is non-empty and free of line terminators (so that `(.+)` can
consume it up to `$`). -/
def bearerBacktrack (rest : List Char) : Nat → Option (List Char)
  | 0 => none
  | k + 1 =>
    let suf := rest.drop (k + 1)
    if suf.length > 0 && suf.all (fun c => !(isLineTerminator c)) then some suf
    else bearerBacktrack rest k

/-- The JavaScript match `authValue.match(/^Bearer\s+(.+)$/i)`: case-insensitive
literal `Bearer`, at least one whitespace character, then a non-empty capture
of non-line-terminator characters reaching the end of the string.  Returns
the captured group. -/
def bearerMatch (s : String) : Option String :=
  let cs := s.toList
  if (cs.take 6).map Char.toLower = "bearer".toList then
    let rest := cs.drop 6
    match bearerBacktrack rest (rest.takeWhile isJsWhitespace).length with
    | some suf => some (String.mk suf)
    | none => none
  else none

/-- Result record of `extractCredentialsFromRequest`: the function initialises
both fields to `undefined` and fills them only on a full parse. -/
structure ExtractedCreds where
  apiToken : Option String
  domain : Option String
  deriving DecidableEq, Repr

/-- An inbound HTTP request at the level observed by the server code: the
`authorization` header (a plain string when present, as delivered by the
runtime's HTTP parser), the `sessionId` query parameter, and the
`x-session-id` header. -/
structure Request where
  authHeader : Option String
  querySessionId : Option String
  xSessionId : Option String

/-- Shallow embedding of `extractCredentialsFromRequest` (src/index.ts
lines 232-272): read the `authorization` header; match it against
`/^Bearer\s+(.+)$/i`; if the captured token contains a colon, split on `':'`,
take the first field as the api token and re-join the remaining fields with
`':'` as the domain; in every other case leave both fields `undefined`. -/
def extractCredentialsFromRequest (req : Request) : ExtractedCreds :=
  match req.authHeader with
  | none => ⟨none, none⟩
  | some authValue =>
    match bearerMatch authValue with
    | none => ⟨none, none⟩
    | some token =>
      let cs := token.toList
      if ':' ∈ cs then
        let parts := jsSplitChar ':' cs
        if parts.length ≥ 2 then
          ⟨some (String.mk (parts.headD [])),
           some (String.mk (joinChar ':' (parts.drop 1)))⟩
        else ⟨none, none⟩
      else ⟨none, none⟩

/-- Reference parse, written from the specification text: the bearer value is
interpreted as `apiToken:tenantDomain`, split on the FIRST colon, with all
remaining colons part of the domain; a header that is absent, does not match
the Bearer shape, or whose bearer value contains no colon yields neither
token nor domain. -/
def specCredentialParse (header : Option String) : ExtractedCreds :=
  match header with
  | none => ⟨none, none⟩
  | some h =>
    match bearerMatch h with
    | none => ⟨none, none⟩
    | some v =>
      let cs := v.toList
      if ':' ∈ cs then
        ⟨some (String.mk (cs.takeWhile (fun c => c ≠ ':'))),
         some (String.mk ((cs.dropWhile (fun c => c ≠ ':')).drop 1))⟩
      else ⟨none, none⟩

example : extractCredentialsFromRequest ⟨some "Bearer abc:my.co:8080", none, none⟩ =
    ⟨some "abc", some "my.co:8080"⟩ := by decide

example : extractCredentialsFromRequest ⟨some "Bearer abc", none, none⟩ =
    ⟨none, none⟩ := by decide

example : extractCredentialsFromRequest ⟨some "bearer  x:y", none, none⟩ =
    ⟨some "x", some "y"⟩ := by decide

example : extractCredentialsFromRequest ⟨some "Basic abc:d", none, none⟩ =
    ⟨none, none⟩ := by decide

example : extractCredentialsFromRequest ⟨some "Bearer :d", none, none⟩ =
    ⟨some "", some "d"⟩ := by decide

example : extractCredentialsFromRequest ⟨some "Bearer  ", none, none⟩ =
    ⟨none, none⟩ := by decide

theorem jsSplitChar_ne_nil (sep : Char) (l : List Char) : jsSplitChar sep l ≠ [] := by
  induction l with
  | nil => simp [jsSplitChar]
  | cons c rest ih =>
    simp only [jsSplitChar]
    split
    · simp
    · split <;> simp

theorem joinChar_jsSplitChar (sep : Char) (l : List Char) :
    joinChar sep (jsSplitChar sep l) = l := by
  induction l with
  | nil => rfl
  | cons c rest ih =>
    simp only [jsSplitChar]
    split
    · rename_i hc
      cases hr : jsSplitChar sep rest with
      | nil => exact absurd hr (jsSplitChar_ne_nil sep rest)
      | cons p ps =>
        rw [hr] at ih
        simp [joinChar, hc, ih]
    · rename_i hc
      cases hr : jsSplitChar sep rest with
      | nil => exact absurd hr (jsSplitChar_ne_nil sep rest)
      | cons p ps =>
        rw [hr] at ih
        cases ps with
        | nil => simp [joinChar] at ih ⊢; simp [ih]
        | cons q qs => simp [joinChar] at ih ⊢; simp [ih]

theorem headD_jsSplitChar (sep : Char) (l : List Char) :
    (jsSplitChar sep l).headD [] = l.takeWhile (fun c => c ≠ sep) := by
  induction l with
  | nil => rfl
  | cons c rest ih =>
    simp only [jsSplitChar]
    split
    · rename_i hc
      simp [List.takeWhile_cons, hc]
    · rename_i hc
      cases hr : jsSplitChar sep rest with
      | nil => exact absurd hr (jsSplitChar_ne_nil sep rest)
      | cons p ps =>
        rw [hr] at ih
        simp only [ne_eq, decide_not] at ih
        simp [List.takeWhile_cons, hc, ← ih]

theorem two_le_length_jsSplitChar (sep : Char) (l : List Char) (h : sep ∈ l) :
    2 ≤ (jsSplitChar sep l).length := by
  induction l with
  | nil => cases h
  | cons c rest ih =>
    simp only [jsSplitChar]
    split
    · cases hr : jsSplitChar sep rest with
      | nil => exact absurd hr (jsSplitChar_ne_nil sep rest)
      | cons p ps => simp
    · rename_i hc
      have hm : sep ∈ rest := by
        cases List.mem_cons.mp h with
        | inl he => exact absurd he.symm hc
        | inr hm => exact hm
      cases hr : jsSplitChar sep rest with
      | nil => exact absurd hr (jsSplitChar_ne_nil sep rest)
      | cons p ps =>
        have h2 := ih hm
        rw [hr] at h2
        simpa using h2

theorem joinChar_drop_one_jsSplitChar (sep : Char) (l : List Char) (h : sep ∈ l) :
    joinChar sep ((jsSplitChar sep l).drop 1) =
      (l.dropWhile (fun c => c ≠ sep)).drop 1 := by
  induction l with
  | nil => cases h
  | cons c rest ih =>
    simp only [jsSplitChar]
    split
    · rename_i hc
      simp [List.dropWhile_cons, hc, joinChar_jsSplitChar]
    · rename_i hc
      have hm : sep ∈ rest := by
        cases List.mem_cons.mp h with
        | inl he => exact absurd he.symm hc
        | inr hm => exact hm
      cases hr : jsSplitChar sep rest with
      | nil => exact absurd hr (jsSplitChar_ne_nil sep rest)
      | cons p ps =>
        have := ih hm
        rw [hr] at this
        simpa [List.dropWhile_cons, hc] using this

/-- C1: for every inbound request, credential extraction behaves exactly as the
reference parse written from the specification — the bearer value is split on
the first colon into token and domain (later colons staying in the domain),
and any header that is absent, non-Bearer-shaped, or colon-free yields neither
token nor domain; being a total function in this embedding, it returns
normally on every input. -/
theorem extractCredentials_matches_reference (req : Request) :
    extractCredentialsFromRequest req = specCredentialParse req.authHeader := by
  cases req with
  | mk ah q x =>
    cases ah with
    | none => rfl
    | some a =>
      simp only [extractCredentialsFromRequest, specCredentialParse]
      cases hb : bearerMatch a with
      | none => rfl
      | some token =>
        by_cases hc : ':' ∈ token.toList
        · have h2 := two_le_length_jsSplitChar ':' token.toList hc
          simp only [if_pos hc, if_pos h2]
          have hh := headD_jsSplitChar ':' token.toList
          have hj := joinChar_drop_one_jsSplitChar ':' token.toList hc
          rw [hh, hj]
        · simp only [String.toList] at hc
          simp [hc]

/-- A JavaScript object value as observed by the rate-limiting proxy: a plain
data field, a function (tagged with whether invoking it goes through
`limiter.schedule`), an ordinary object, or a `Proxy` produced by
`withRateLimit` wrapping an object's fields. -/
inductive ClientVal where
  | str (s : String)
  | fn (scheduled : Bool)
  | obj (fields : List (String × ClientVal))
  | proxy (fields : List (String × ClientVal))

/-- Shallow embedding of `withRateLimit` (src/index.ts lines 92-102): wraps an
object in a `Proxy` whose `get` trap intercepts property reads. -/
def withRateLimit : ClientVal → ClientVal
  | .obj fs => .proxy fs
  | v => v

/-- Property read: on a plain object, `Reflect.get`; on a `withRateLimit`
proxy, the trap returns a wrapper routing the call through
`limiter.schedule(...)` when the property value is a function, and returns the
underlying value unchanged otherwise. -/
def getMember : ClientVal → String → Option ClientVal
  | .obj fs, p => fs.lookup p
  | .proxy fs, p =>
    match fs.lookup p with
    | some (.fn _) => some (.fn true)
    | r => r
  | _, _ => none

/-- Follow a chain of property reads from a root object and invoke the final
property as a method; yields `some b` when the chain ends at a function,
where `b` records whether that invocation is routed through the limiter's
`schedule` primitive. -/
def invokePath : ClientVal → List String → Option Bool
  | _, [] => none
  | root, [p] =>
    match getMember root p with
    | some (.fn b) => some b
    | _ => none
  | root, p :: ps =>
    match getMember root p with
    | some v => invokePath v ps
    | none => none

/-- Interface model of the third-party `pipedrive.ApiClient` as configured by
`createApiClients`: `basePath` and the api-key authentication are data
fields, and `callApi` is the method through which every request to the
upstream API is ultimately performed — calling it directly does not pass
through the limiter. -/
def pipedriveApiClient (apiToken domain : String) : ClientVal :=
  .obj [("basePath", .str ("https://" ++ domain ++ "/api/v1")),
        ("apiKey", .str apiToken),
        ("callApi", .fn false)]

/-- Interface model of a third-party pipedrive resource class (DealsApi,
PersonsApi, ...): it keeps a reference to the shared `ApiClient` it was
constructed with and exposes methods that each perform an upstream call
directly (hence unscheduled until wrapped). -/
def pipedriveResourceApi (methods : List String) (apiClient : ClientVal) : ClientVal :=
  .obj (("apiClient", apiClient) :: methods.map (fun m => (m, ClientVal.fn false)))

/-- The `SessionCredentials` record stored per session (src/index.ts
lines 105-118). -/
structure SessionCredentials where
  apiToken : String
  domain : String
  apiClient : ClientVal
  dealsApi : ClientVal
  personsApi : ClientVal
  organizationsApi : ClientVal
  pipelinesApi : ClientVal
  itemSearchApi : ClientVal
  leadsApi : ClientVal
  activitiesApi : ClientVal
  notesApi : ClientVal
  usersApi : ClientVal

/-- Shallow embedding of `createApiClients` (src/index.ts lines 124-152): one
raw `ApiClient` configured with base path and api key, stored as-is in the
session record, and nine resource clients each wrapped by `withRateLimit`. -/
def createApiClients (apiToken domain : String) : SessionCredentials :=
  let apiClient := pipedriveApiClient apiToken domain
  { apiToken := apiToken
    domain := domain
    apiClient := apiClient
    dealsApi := withRateLimit (pipedriveResourceApi ["getDeals", "searchDeals", "getDeal"] apiClient)
    personsApi := withRateLimit (pipedriveResourceApi ["getPersons", "getPerson", "searchPersons"] apiClient)
    organizationsApi := withRateLimit (pipedriveResourceApi ["getOrganizations", "getOrganization", "searchOrganization"] apiClient)
    pipelinesApi := withRateLimit (pipedriveResourceApi ["getPipelines", "getPipeline", "getPipelineStages"] apiClient)
    itemSearchApi := withRateLimit (pipedriveResourceApi ["searchItem"] apiClient)
    leadsApi := withRateLimit (pipedriveResourceApi ["searchLeads"] apiClient)
    activitiesApi := withRateLimit (pipedriveResourceApi ["getActivities"] apiClient)
    notesApi := withRateLimit (pipedriveResourceApi ["getNotes"] apiClient)
    usersApi := withRateLimit (pipedriveResourceApi ["getUsers"] apiClient) }

/-- The object a tool handler (or any other caller) reaches when it holds a
session's `SessionCredentials` value: all fields of the record are
accessible. -/
def sessionRoot (c : SessionCredentials) : ClientVal :=
  .obj [("apiToken", .str c.apiToken), ("domain", .str c.domain),
        ("apiClient", c.apiClient), ("dealsApi", c.dealsApi),
        ("personsApi", c.personsApi), ("organizationsApi", c.organizationsApi),
        ("pipelinesApi", c.pipelinesApi), ("itemSearchApi", c.itemSearchApi),
        ("leadsApi", c.leadsApi), ("activitiesApi", c.activitiesApi),
        ("notesApi", c.notesApi), ("usersApi", c.usersApi)]

/-- The `sessions` map, in insertion order. -/
abbrev Store := List (String × SessionCredentials)

/-- JavaScript `Map.set`: replace in place when the key exists, append
otherwise. -/
def mapSet (st : Store) (k : String) (v : SessionCredentials) : Store :=
  if (st.lookup k).isSome then
    st.map (fun p => if p.1 = k then (k, v) else p)
  else st ++ [(k, v)]

/-- The transport selected by `MCP_TRANSPORT` at process start. -/
inductive TransportType where
  | stdio
  | sse
  | http
  deriving DecidableEq, Repr

/-- Static process configuration consumed by the core: transport selection,
the optional signing secret, the signed-token verification outcome (the
`jsonwebtoken` library, modelled at its interface as an oracle on the token
string under the configured secret/algorithm/audience/issuer), and the
environment fallback credentials used by the stdio transport. -/
structure Config where
  transportType : TransportType
  jwtSecret : Option String
  jwtVerify : String → Bool
  defaultApiToken : Option String
  defaultDomain : Option String

/-- Result of `verifyRequestAuthentication`. -/
inductive AuthRes where
  | ok
  | err (status : Nat) (message : String)
  deriving DecidableEq, Repr

/-- Shallow embedding of `verifyRequestAuthentication` (src/index.ts
lines 64-85): trivially ok when no signing secret is configured; otherwise
requires the `authorization` header, splits it on single spaces, requires the
first field to be exactly `Bearer` and the second to be a non-empty token
that verifies against the configured secret. -/
def verifyRequestAuthentication (cfg : Config) (req : Request) : AuthRes :=
  match cfg.jwtSecret with
  | none => .ok
  | some _ =>
    match req.authHeader with
    | none => .err 401 "Missing Authorization header"
    | some header =>
      let parts := jsSplitChar ' ' header.toList
      let scheme := String.mk (parts.headD [])
      let token := String.mk ((parts.drop 1).headD [])
      if scheme ≠ "Bearer" || token = "" then
        .err 401 "Invalid Authorization header format"
      else if cfg.jwtVerify token then .ok
      else .err 401 "Invalid or expired token"

/-- Shallow embedding of `getSessionCredentials` (src/index.ts lines 156-192):
an existing session is returned as-is (supplied credentials ignored); for the
stdio transport missing credentials fall back to the environment defaults;
for HTTP/SSE both token and domain must be truthy or the call throws; on
creation the new record is stored in the map. -/
def getSessionCredentials (cfg : Config) (sessionId : String)
    (apiToken domain : Option String) (st : Store) :
    Except String (SessionCredentials × Store) :=
  match st.lookup sessionId with
  | some c => .ok (c, st)
  | none =>
    if cfg.transportType = TransportType.stdio then
      let token := jsOr apiToken cfg.defaultApiToken
      let dom := jsOr domain cfg.defaultDomain
      if !(truthy token) || !(truthy dom) then
        .error "Pipedrive API credentials are required. For stdio transport, provide via Authorization header or set PIPEDRIVE_API_TOKEN and PIPEDRIVE_DOMAIN environment variables."
      else
        let creds := createApiClients (token.getD "") (dom.getD "")
        .ok (creds, mapSet st sessionId creds)
    else
      if !(truthy apiToken) || !(truthy domain) then
        .error "Pipedrive API credentials are required. Provide Authorization: Bearer token:domain header in your request."
      else
        let creds := createApiClients (apiToken.getD "") (domain.getD "")
        .ok (creds, mapSet st sessionId creds)

/-- Shallow embedding of `getCurrentSessionCredentials` (src/index.ts
lines 196-225): resolve the ambient session id from the request-identity
context; a truthy id is looked up in the store (throwing when absent); an
absent id falls back to the fixed `stdio` session on the stdio transport and
throws otherwise.  The function has access to the mutable store, so the
embedding passes the store through to state its (absent) effect on it. -/
def getCurrentSessionCredentials (cfg : Config) (ctx : Option String) (st : Store) :
    Except String SessionCredentials × Store :=
  (if truthy ctx then
    match st.lookup (ctx.getD "") with
    | some c => .ok c
    | none => .error "Session exists but has no credentials. Provide credentials via Authorization: Bearer token:domain header."
  else
    match cfg.transportType, st.lookup "stdio" with
    | TransportType.stdio, some c => .ok c
    | _, _ => .error "No credentials found. MCP-compliant authentication requires Authorization: Bearer token:domain header in each request.",
   st)

/-- One kind of entry in the `transports` map: an SDK `SSEServerTransport`
bound to an open event stream, or the hand-rolled HTTP transport wrapper. -/
inductive TransportKind where
  | sse
  | http
  deriving DecidableEq, Repr

/-- The mutable module-level state of the HTTP server: the `sessions`
credential map and the `transports` map of open connections. -/
structure ServerState where
  sessions : Store
  transports : List (String × TransportKind)

/-- JavaScript `Map.set` on the transports map. -/
def mapSetT (ts : List (String × TransportKind)) (k : String) (v : TransportKind) :
    List (String × TransportKind) :=
  if (ts.lookup k).isSome then ts.map (fun p => if p.1 = k then (k, v) else p)
  else ts ++ [(k, v)]

/-- An `http.ServerResponse` as observed by the dispatch code: whether headers
have been sent, and the ordered list of status codes actually written. -/
structure Res where
  headersSent : Bool
  writes : List Nat

/-- An unconditional `writeHead`/`end` pair. -/
def Res.write (r : Res) (status : Nat) : Res :=
  ⟨true, r.writes ++ [status]⟩

/-- A write guarded by `!res.headersSent`, the pattern used by
`transport.send`, the timeout fallback, and the error paths. -/
def sendGuarded (r : Res) (status : Nat) : Res :=
  if r.headersSent then r else r.write status

/-- The fixed bounded wait of the stateless reply bridge: a 5000 ms timeout
polled every 10 ms, i.e. 500 polling ticks. -/
def timeoutTicks : Nat := 500

/-- Result of running the stateless transport's synchronous-reply bridge on
one message. -/
structure DispatchResult where
  res : Res
  handlerCancelled : Bool

/-- Shallow embedding of the stateless-mode message dispatch (src/index.ts
lines 1344-1400), with single-threaded asynchronous time abstracted into
10 ms polling ticks.  `handlerReplyTick` is the tick at which the handler's
`transport.send` fires, if ever.  For a request carrying an `id`: a handler
reply arriving before the timeout performs a guarded 200 write; the 5-second
timeout callback (which is never cleared) then performs a guarded 202 write;
a handler reply arriving after the timeout performs its guarded write when
headers are already sent.  For a notification the 202 is written immediately
and any later handler send is guarded.  Nothing ever cancels the handler. -/
def httpDispatch (hasId : Bool) (handlerReplyTick : Option Nat) (bound : Nat) :
    DispatchResult :=
  let r0 : Res := ⟨false, []⟩
  if hasId then
    let r1 := match handlerReplyTick with
      | some t => if t < bound then sendGuarded r0 200 else r0
      | none => r0
    let r2 := sendGuarded r1 202
    let r3 := match handlerReplyTick with
      | some t => if bound ≤ t then sendGuarded r2 200 else r2
      | none => r2
    ⟨r3, false⟩
  else
    let r1 := sendGuarded r0 202
    let r2 := match handlerReplyTick with
      | some _ => sendGuarded r1 200
      | none => r1
    ⟨r2, false⟩

/-- One JSON-RPC message, as far as the dispatch layer inspects it: whether
`message.id` is present. -/
structure RpcMessage where
  id : Option Nat

/-- Outcome of a GET /sse request: the HTTP status (200 standing for the
opened event stream), the server state afterwards, and the session id stored
by this request, if any. -/
structure GetSseOutcome where
  status : Nat
  state : ServerState
  sessionCreated : Option String

/-- Shallow embedding of the `GET /sse` branch of the request handler
(src/index.ts lines 1156-1215).  Note that this branch never invokes
`verifyRequestAuthentication`: it goes straight to credential extraction.
`freshId` is the session identifier minted by the SDK `SSEServerTransport`;
`server.connect` is external and modelled as succeeding. -/
def handleGetSse (cfg : Config) (req : Request) (freshId : String)
    (st : ServerState) : GetSseOutcome :=
  let e := extractCredentialsFromRequest req
  if !(truthy e.apiToken) || !(truthy e.domain) then
    { status := 401, state := st, sessionCreated := none }
  else
    match getSessionCredentials cfg freshId e.apiToken e.domain st.sessions with
    | .error _ => { status := 500, state := st, sessionCreated := none }
    | .ok (_, sessions1) =>
      { status := 200
        state := { sessions := sessions1
                   transports := mapSetT st.transports freshId TransportKind.sse }
        sessionCreated := some freshId }

/-- Outcome of a POST to the message endpoint: the first status code written,
the server state afterwards, and the session identifier under which the
message was handed to the MCP layer (none when it was not dispatched). -/
structure PostOutcome where
  status : Nat
  state : ServerState
  dispatched : Option String

/-- The session id a POST references: the `sessionId` query parameter,
falling back (by JavaScript `||`) to the `x-session-id` header. -/
def resolvedSessionId (req : Request) : Option String :=
  jsOr req.querySessionId req.xSessionId

/-- Stateless-mode POST handling (src/index.ts lines 1233-1419), entered
after the Authentication Gate: credentials are required, a session id is
taken from the request or freshly synthesized, credentials are stored for it,
then the body is parsed (`none` = JSON parse error) and the message is run
through the reply bridge under the session's identity context.  The SDK's
`server.connect` installs `onmessage` on the wrapper transport. -/
def handlePostHttpMode (cfg : Config) (e : ExtractedCreds)
    (sessionId : Option String) (freshId : String) (body : Option RpcMessage)
    (handlerReplyTick : Option Nat) (st : ServerState) : PostOutcome :=
  if !(truthy e.apiToken) || !(truthy e.domain) then
    { status := 401, state := st, dispatched := none }
  else
    let httpSessionId := if truthy sessionId then sessionId.getD "" else freshId
    match getSessionCredentials cfg httpSessionId e.apiToken e.domain st.sessions with
    | .error _ => { status := 500, state := st, dispatched := none }
    | .ok (_, sessions1) =>
      match body with
      | none =>
        { status := 400
          state := { st with sessions := sessions1 }
          dispatched := none }
      | some msg =>
        let transports1 := if (st.transports.lookup httpSessionId).isSome then
            st.transports
          else mapSetT st.transports httpSessionId TransportKind.http
        let d := httpDispatch msg.id.isSome handlerReplyTick timeoutTicks
        { status := d.res.writes.headD 202
          state := { sessions := sessions1, transports := transports1 }
          dispatched := some httpSessionId }

/-- The tail of streamed-mode POST handling after credential bookkeeping
(src/index.ts lines 1447-1491): transport lookup (404 when no open
connection), the in-`try` credential re-check, and the dispatch to
`transport.handlePostMessage` inside the session's identity context. -/
def handlePostSseTail (cfg : Config) (req : Request) (sessionId : String)
    (sessions1 : Store) (st : ServerState) : PostOutcome :=
  match st.transports.lookup sessionId with
  | none =>
    { status := 404
      state := { st with sessions := sessions1 }
      dispatched := none }
  | some _ =>
    if (sessions1.lookup sessionId).isNone then
      let e2 := extractCredentialsFromRequest req
      if truthy e2.apiToken && truthy e2.domain then
        match getSessionCredentials cfg sessionId e2.apiToken e2.domain sessions1 with
        | .ok (_, sessions2) =>
          { status := 200
            state := { st with sessions := sessions2 }
            dispatched := some sessionId }
        | .error _ =>
          { status := 500
            state := { st with sessions := sessions1 }
            dispatched := none }
      else
        { status := 401
          state := { st with sessions := sessions1 }
          dispatched := none }
    else
      { status := 200
        state := { st with sessions := sessions1 }
        dispatched := some sessionId }

/-- Streamed-mode POST handling (src/index.ts lines 1422-1491), entered after
the Authentication Gate: requires a truthy session id (400 otherwise); when
the request carries a full credential pair it calls `getSessionCredentials`
(exceptions swallowed), otherwise it rejects with 401 unless a session is
already stored; the shared tail then checks the transport and dispatches. -/
def handlePostSseMode (cfg : Config) (req : Request) (e : ExtractedCreds)
    (sessionIdOpt : Option String) (st : ServerState) : PostOutcome :=
  if !(truthy sessionIdOpt) then
    { status := 400, state := st, dispatched := none }
  else
    let sessionId := sessionIdOpt.getD ""
    if truthy e.apiToken && truthy e.domain then
      let sessions1 := match getSessionCredentials cfg sessionId e.apiToken e.domain st.sessions with
        | .ok (_, s1) => s1
        | .error _ => st.sessions
      handlePostSseTail cfg req sessionId sessions1 st
    else
      if (st.sessions.lookup sessionId).isNone then
        { status := 401, state := st, dispatched := none }
      else
        handlePostSseTail cfg req sessionId st.sessions st

/-- Shallow embedding of the POST branch of the request handler
(src/index.ts lines 1216-1491): the Authentication Gate runs first, then
credentials are extracted and the mode-specific handling runs. -/
def handlePost (cfg : Config) (req : Request) (freshId : String)
    (body : Option RpcMessage) (handlerReplyTick : Option Nat)
    (st : ServerState) : PostOutcome :=
  match verifyRequestAuthentication cfg req with
  | .err s _ => { status := s, state := st, dispatched := none }
  | .ok =>
    let e := extractCredentialsFromRequest req
    let sessionId := resolvedSessionId req
    if cfg.transportType = TransportType.http then
      handlePostHttpMode cfg e sessionId freshId body handlerReplyTick st
    else
      handlePostSseMode cfg req e sessionId st

/-! Concrete deployments and requests used to exercise the model. -/

/-- A streamed-transport deployment without a signing secret. -/
def cfgSseNoJwt : Config :=
  { transportType := TransportType.sse, jwtSecret := none,
    jwtVerify := fun _ => false, defaultApiToken := none, defaultDomain := none }

/-- A stateless-transport deployment without a signing secret. -/
def cfgHttpNoJwt : Config :=
  { transportType := TransportType.http, jwtSecret := none,
    jwtVerify := fun _ => false, defaultApiToken := none, defaultDomain := none }

/-- A streamed-transport deployment with a signing secret configured, under
which no inbound bearer value verifies as a signed token. -/
def cfgSseJwtBad : Config :=
  { transportType := TransportType.sse, jwtSecret := some "secret",
    jwtVerify := fun _ => false, defaultApiToken := none, defaultDomain := none }

/-- The empty server state at process start. -/
def emptyState : ServerState := ⟨[], []⟩

/-- A request carrying plain `token:domain` credentials and no session id. -/
def reqCreds : Request := ⟨some "Bearer abc123:corp.example.com", none, none⟩

/-- A request carrying fresh credentials for the already-bound session `s`. -/
def reqRebind : Request := ⟨some "Bearer t2:d2", some "s", none⟩

/-- A request carrying credentials and referencing the session id `x`. -/
def reqCredsX : Request := ⟨some "Bearer t:d", some "x", none⟩

/-- A request with no Authorization header referencing the session id `s`. -/
def reqNoAuthS : Request := ⟨none, some "s", none⟩

/-- A server state holding one streamed session `s` bound to `(t1, d1)`. -/
def stOneSse : ServerState :=
  ⟨[("s", createApiClients "t1" "d1")], [("s", TransportKind.sse)]⟩

/-- A server state holding one session `s` bound to `(t1, d1)` with no open
transport (stateless mode keeps no transport before the first message). -/
def stOneHttp : ServerState := ⟨[("s", createApiClients "t1" "d1")], []⟩

/-! Helper lemmas. -/

theorem lookup_append_self (k : String) (v : SessionCredentials) (st : Store)
    (h : st.lookup k = none) : (st ++ [(k, v)]).lookup k = some v := by
  induction st with
  | nil => simp [List.lookup]
  | cons p t ih =>
    obtain ⟨a, b⟩ := p
    by_cases hk : k = a
    · exfalso
      have hba : (k == a) = true := by simpa using hk
      simp [List.lookup, hba] at h
    · have hba : (k == a) = false := by simpa using hk
      simp only [List.lookup, hba] at h
      simp only [List.cons_append, List.lookup, hba]
      exact ih h

theorem lookup_map_replace (k : String) (v : SessionCredentials) (st : Store)
    (h : (st.lookup k).isSome = true) :
    (st.map (fun p => if p.1 = k then (k, v) else p)).lookup k = some v := by
  induction st with
  | nil => simp [List.lookup] at h
  | cons p t ih =>
    obtain ⟨a, b⟩ := p
    by_cases hk : k = a
    · subst hk
      have hf : ((k, b) :: t).map (fun p => if p.1 = k then (k, v) else p) =
          (k, v) :: t.map (fun p => if p.1 = k then (k, v) else p) := by simp
      rw [hf]
      simp [List.lookup]
    · have hba : (k == a) = false := by simpa using hk
      simp only [List.lookup, hba] at h
      simp only [List.map_cons]
      rw [if_neg (by simpa using Ne.symm hk)]
      simp only [List.lookup, hba]
      exact ih h

/-- After a `Map.set`, looking up the written key yields the written value. -/
theorem lookup_mapSet_self (st : Store) (k : String) (v : SessionCredentials) :
    (mapSet st k v).lookup k = some v := by
  unfold mapSet
  split
  · exact lookup_map_replace k v st (by assumption)
  · rename_i h
    exact lookup_append_self k v st (by
      cases hl : st.lookup k with
      | none => rfl
      | some c => rw [hl] at h; simp at h)

/-- Every failure of the Authentication Gate carries HTTP status 401. -/
theorem verifyAuth_err_401 (cfg : Config) (req : Request) (s : Nat) (m : String)
    (h : verifyRequestAuthentication cfg req = AuthRes.err s m) : s = 401 := by
  unfold verifyRequestAuthentication at h
  split at h
  · cases h
  · split at h
    · cases h; rfl
    · dsimp only at h
      split at h
      · cases h; rfl
      · split at h
        · cases h
        · cases h; rfl

/-- Reads through a `withRateLimit` proxy only ever expose scheduled
functions: the `get` trap wraps every function value into a
`limiter.schedule` call. -/
theorem getMember_proxy_scheduled (fs : List (String × ClientVal)) (p : String)
    (b : Bool) (h : getMember (ClientVal.proxy fs) p = some (ClientVal.fn b)) :
    b = true := by
  simp only [getMember] at h
  split at h
  · cases h; rfl
  · rename_i hne
    cases hl : fs.lookup p with
    | none => rw [hl] at h; cases h
    | some v =>
      rw [hl] at h
      cases h
      exact absurd hl (by intro hc; exact hne b hc)

/-! ### C2 -/

/-- C2: session stickiness — whenever the store already holds a session for
`sessionId`, `getSessionCredentials` returns that session's bound credentials
and the store unchanged, ignoring whatever credentials accompany the call. -/
theorem getSessionCredentials_sticky (cfg : Config) (sid : String)
    (tok dom : Option String) (st : Store) (c : SessionCredentials)
    (h : st.lookup sid = some c) :
    getSessionCredentials cfg sid tok dom st = Except.ok (c, st) := by
  unfold getSessionCredentials
  rw [h]

/-- Witness for C2 at a concrete store and differing supplied credentials. -/
theorem getSessionCredentials_sticky_app :
    getSessionCredentials cfgSseNoJwt "s" (some "other") (some "other.dom")
        [("s", createApiClients "t1" "d1")] =
      Except.ok (createApiClients "t1" "d1", [("s", createApiClients "t1" "d1")]) :=
  getSessionCredentials_sticky cfgSseNoJwt "s" (some "other") (some "other.dom")
    [("s", createApiClients "t1" "d1")] (createApiClients "t1" "d1") rfl

/-! ### C10 -/

/-- C10: resolving the current session's credentials from the ambient context
is read-only on the session store — the store after the call is exactly the
store before it, and a successful result is always some stored session's
credentials (on error it throws having changed nothing). -/
theorem getCurrentSessionCredentials_readOnly (cfg : Config)
    (ctx : Option String) (st : Store) :
    (getCurrentSessionCredentials cfg ctx st).2 = st ∧
    ∀ c, (getCurrentSessionCredentials cfg ctx st).1 = Except.ok c →
      ∃ sid, st.lookup sid = some c := by
  refine ⟨rfl, ?_⟩
  intro c h
  simp only [getCurrentSessionCredentials] at h
  split at h
  · split at h
    · rename_i c0 hl
      cases h
      exact ⟨ctx.getD "", hl⟩
    · cases h
  · split at h
    · cases h
      exact ⟨"stdio", by assumption⟩
    · cases h

/-- Witness for C10 at a stdio deployment with a bound stdio session. -/
theorem getCurrentSessionCredentials_readOnly_app :
    (getCurrentSessionCredentials
        ⟨TransportType.stdio, none, fun _ => false, none, none⟩ none
        [("stdio", createApiClients "t" "d")]).2 =
      [("stdio", createApiClients "t" "d")] ∧
    ∃ sid, List.lookup sid [("stdio", createApiClients "t" "d")] =
      some (createApiClients "t" "d") := by
  have h := getCurrentSessionCredentials_readOnly
    ⟨TransportType.stdio, none, fun _ => false, none, none⟩ none
    [("stdio", createApiClients "t" "d")]
  exact ⟨h.1, h.2 (createApiClients "t" "d") rfl⟩

/-! ### C9 -/

/-- C9 counterexample: it is NOT the case that every upstream invocation
reachable from a stored session's credentials is routed through the
limiter's schedule — the raw `ApiClient` stored in the session record is not
wrapped, so calling its `callApi` method directly bypasses the limiter. -/
theorem rateLimit_bypass_cex :
    ¬ (∀ (path : List String) (b : Bool),
        invokePath (sessionRoot (createApiClients "t" "d")) path = some b →
        b = true) := by
  intro h
  exact Bool.false_ne_true (h ["apiClient", "callApi"] false rfl)

/-- C9 amended: method invocations made directly on the nine wrapped resource
clients stored in a session are always routed through the limiter's
schedule primitive; the bypass exists only through the un-wrapped inner
`apiClient` reference. -/
theorem proxied_clients_scheduled (t d p : String) (b : Bool) :
    (getMember (createApiClients t d).dealsApi p = some (ClientVal.fn b) → b = true) ∧
    (getMember (createApiClients t d).personsApi p = some (ClientVal.fn b) → b = true) ∧
    (getMember (createApiClients t d).organizationsApi p = some (ClientVal.fn b) → b = true) ∧
    (getMember (createApiClients t d).pipelinesApi p = some (ClientVal.fn b) → b = true) ∧
    (getMember (createApiClients t d).itemSearchApi p = some (ClientVal.fn b) → b = true) ∧
    (getMember (createApiClients t d).leadsApi p = some (ClientVal.fn b) → b = true) ∧
    (getMember (createApiClients t d).activitiesApi p = some (ClientVal.fn b) → b = true) ∧
    (getMember (createApiClients t d).notesApi p = some (ClientVal.fn b) → b = true) ∧
    (getMember (createApiClients t d).usersApi p = some (ClientVal.fn b) → b = true) :=
  ⟨getMember_proxy_scheduled _ p b, getMember_proxy_scheduled _ p b,
   getMember_proxy_scheduled _ p b, getMember_proxy_scheduled _ p b,
   getMember_proxy_scheduled _ p b, getMember_proxy_scheduled _ p b,
   getMember_proxy_scheduled _ p b, getMember_proxy_scheduled _ p b,
   getMember_proxy_scheduled _ p b⟩

/-- Witness for C9 amended: a direct `getDeals` read on the wrapped deals
client yields a scheduled function. -/
theorem proxied_clients_scheduled_app :
    getMember (createApiClients "t" "d").dealsApi "getDeals" =
      some (ClientVal.fn true) ∧ true = true :=
  ⟨rfl, (proxied_clients_scheduled "t" "d" "getDeals" true).1 rfl⟩

/-! ### C6 -/

/-- The reply sequence of the stateless reply bridge, in closed form. -/
theorem httpDispatch_writes (hasId : Bool) (t : Option Nat) (bound : Nat) :
    (httpDispatch hasId t bound).res.writes =
      if hasId then
        match t with
        | some k => if k < bound then [200] else [202]
        | none => [202]
      else [202] := by
  cases hasId <;> cases t <;>
    simp only [httpDispatch, sendGuarded, Res.write, if_true, if_false,
      Bool.false_eq_true, Bool.true_eq_false]
  · rfl
  · rfl
  · rfl
  · rename_i k
    by_cases hk : k < bound
    · have hnk : ¬ bound ≤ k := by omega
      simp [hk, hnk]
    · have hnk : bound ≤ k := by omega
      simp [hk, hnk]

/-- C6: the stateless reply bridge writes at most one reply to a request (every
write is guarded by whether headers were already sent); when a request
message carrying an id receives no handler reply within the fixed bounded
wait, the single reply is the fallback 202 Accepted; and nothing cancels the
still-running handler. -/
theorem httpDispatch_single_reply (hasId : Bool) (t : Option Nat) :
    (httpDispatch hasId t timeoutTicks).res.writes.length ≤ 1 ∧
    (hasId = true → (∀ k, t = some k → timeoutTicks ≤ k) →
      (httpDispatch hasId t timeoutTicks).res.writes = [202]) ∧
    (httpDispatch hasId t timeoutTicks).handlerCancelled = false := by
  refine ⟨?_, ?_, ?_⟩
  · rw [httpDispatch_writes]
    cases hasId
    · simp
    · cases t with
      | none => simp
      | some k =>
        by_cases hk : k < timeoutTicks <;> simp [hk]
  · intro hId hlate
    rw [httpDispatch_writes, hId]
    cases t with
    | none => simp
    | some k =>
      have := hlate k rfl
      have hk : ¬ k < timeoutTicks := by omega
      simp [hk]
  · cases hasId <;> cases t <;> rfl

/-- Witness for C6: a request with an id whose handler never replies gets
exactly the single 202 fallback. -/
theorem httpDispatch_single_reply_app :
    (httpDispatch true none timeoutTicks).res.writes.length ≤ 1 ∧
    (httpDispatch true none timeoutTicks).res.writes = [202] := by
  have h := httpDispatch_single_reply true none
  exact ⟨h.1, h.2.1 rfl (fun k hk => by cases hk)⟩

/-! ### C4 -/

/-- C4 (code-bug evidence): on a streamed deployment with a signing secret
configured, the very request the Authentication Gate rejects (a GET /sse
whose bearer value is not a valid signed token) is nevertheless accepted by
the GET /sse handler, which never invokes the gate: the event stream is
established (status 200) and a session is created and stored.  The claim —
and the repository's own readme, which states that with a signing secret all
SSE requests including `/sse` must carry a verified signed token — says the
gate must run first and a rejected request must create no session. -/
theorem getSse_skips_auth_gate :
    verifyRequestAuthentication cfgSseJwtBad reqCreds =
      AuthRes.err 401 "Invalid or expired token" ∧
    (handleGetSse cfgSseJwtBad reqCreds "sid1" emptyState).status = 200 ∧
    ((handleGetSse cfgSseJwtBad reqCreds "sid1" emptyState).state.sessions.lookup
      "sid1").isSome = true := by
  refine ⟨?_, ?_, ?_⟩ <;> rfl

/-! ### C3 -/

/-- C3 counterexample: a streamed-transport POST carrying fresh credentials
`(t2, d2)` for session `s`, which is already bound to `(t1, d1)`, does NOT
discard the prior session and store a new one under the same identifier —
the message is dispatched and the stored binding is still `(t1, d1)`. -/
theorem ssePost_no_rebind_cex :
    (handlePost cfgSseNoJwt reqRebind "fresh" none none stOneSse).dispatched =
      some "s" ∧
    ((handlePost cfgSseNoJwt reqRebind "fresh" none none
        stOneSse).state.sessions.lookup "s").map SessionCredentials.apiToken =
      some "t1" ∧
    ((handlePost cfgSseNoJwt reqRebind "fresh" none none
        stOneSse).state.sessions.lookup "s").map SessionCredentials.apiToken ≠
      some "t2" := by
  refine ⟨rfl, rfl, by decide⟩

/-! ### C7 -/

/-- C7 counterexample: a streamed-transport POST carrying valid credentials
for session identifier `x`, which maps to no open connection, is rejected
with 404 and not dispatched — yet it stores a session under `x` as a side
effect, so the session store after the rejected request differs from the
store before it. -/
theorem rejected_request_creates_session_cex :
    (handlePost cfgSseNoJwt reqCredsX "fresh" none none emptyState).status = 404 ∧
    (handlePost cfgSseNoJwt reqCredsX "fresh" none none emptyState).dispatched =
      none ∧
    ((handlePost cfgSseNoJwt reqCredsX "fresh" none none
        emptyState).state.sessions.lookup "x").isSome = true ∧
    (emptyState.sessions.lookup "x").isSome = false := by
  refine ⟨rfl, rfl, rfl, rfl⟩

/-! ### C8 -/

/-- C8 counterexample: a streamed-transport POST referencing session
identifier `s`, which maps to no open connection, with no credentials and no
stored session, fails with 401 — not with the claimed 404 (the message is
still not dispatched). -/
theorem ssePost_unknown_session_cex :
    (handlePost cfgSseNoJwt reqNoAuthS "fresh" none none emptyState).status = 401 ∧
    (handlePost cfgSseNoJwt reqNoAuthS "fresh" none none emptyState).status ≠ 404 ∧
    (handlePost cfgSseNoJwt reqNoAuthS "fresh" none none emptyState).dispatched =
      none := by
  refine ⟨rfl, by decide, rfl⟩

/-! ### C5 -/

/-- C5 counterexample: on the stateless transport, a POST carrying the
complete credential pair `(t2, d2)` and correlating with the existing session
`s` (bound to `(t1, d1)`) is dispatched under a session bound to `(t1, d1)`,
not to the supplied credentials — so "gets a session bound to those
credentials" fails as stated. -/
theorem httpPost_binding_cex :
    (handlePost cfgHttpNoJwt reqRebind "fresh" (some ⟨some 1⟩) (some 0)
        stOneHttp).dispatched = some "s" ∧
    (handlePost cfgHttpNoJwt reqRebind "fresh" (some ⟨some 1⟩) (some 0)
        stOneHttp).status = 200 ∧
    ((handlePost cfgHttpNoJwt reqRebind "fresh" (some ⟨some 1⟩) (some 0)
        stOneHttp).state.sessions.lookup "s").map SessionCredentials.apiToken =
      some "t1" ∧
    ((handlePost cfgHttpNoJwt reqRebind "fresh" (some ⟨some 1⟩) (some 0)
        stOneHttp).state.sessions.lookup "s").map SessionCredentials.apiToken ≠
      some "t2" := by
  refine ⟨rfl, rfl, rfl, by decide⟩

/-- A successful `getSessionCredentials` call leaves the returned credentials
retrievable under the session id in the returned store. -/
theorem getSessionCredentials_ok_lookup (cfg : Config) (sid : String)
    (tok dom : Option String) (st : Store) (c : SessionCredentials) (st' : Store)
    (h : getSessionCredentials cfg sid tok dom st = Except.ok (c, st')) :
    st'.lookup sid = some c := by
  unfold getSessionCredentials at h
  split at h
  · cases h
    assumption
  · split at h
    · dsimp only at h
      split at h
      · cases h
      · cases h
        exact lookup_mapSet_self _ _ _
    · split at h
      · cases h
      · cases h
        exact lookup_mapSet_self _ _ _

/-- With a truthy credential pair, `getSessionCredentials` succeeds: it
either returns the pre-existing session and the unchanged store, or stores a
session freshly built from the supplied pair. -/
theorem getSessionCredentials_truthy_spec (cfg : Config) (sid : String)
    (tok dom : Option String) (st : Store)
    (htok : truthy tok = true) (hdom : truthy dom = true) :
    (∃ c, st.lookup sid = some c ∧
      getSessionCredentials cfg sid tok dom st = Except.ok (c, st)) ∨
    (st.lookup sid = none ∧
      getSessionCredentials cfg sid tok dom st =
        Except.ok (createApiClients (tok.getD "") (dom.getD ""),
          mapSet st sid (createApiClients (tok.getD "") (dom.getD "")))) := by
  cases hl : st.lookup sid with
  | some c =>
    left
    exact ⟨c, rfl, by unfold getSessionCredentials; rw [hl]⟩
  | none =>
    right
    refine ⟨rfl, ?_⟩
    unfold getSessionCredentials
    rw [hl]
    by_cases hstd : cfg.transportType = TransportType.stdio
    · have h1 : jsOr tok cfg.defaultApiToken = tok := by simp [jsOr, htok]
      have h2 : jsOr dom cfg.defaultDomain = dom := by simp [jsOr, hdom]
      rw [if_pos hstd]
      dsimp only
      rw [h1, h2, htok, hdom]
      simp
    · rw [if_neg hstd]
      dsimp only
      rw [htok, hdom]
      simp

/-! ### C3 amended -/

/-- When the credential bookkeeping left the session stored, the streamed-mode
tail never changes the session map. -/
theorem ssePostTail_keeps_sessions (cfg : Config) (req : Request) (sid : String)
    (st : ServerState) (hs : (st.sessions.lookup sid).isSome = true) :
    (handlePostSseTail cfg req sid st.sessions st).state.sessions = st.sessions := by
  unfold handlePostSseTail
  have hn : (st.sessions.lookup sid).isNone = false := by
    cases hl : st.sessions.lookup sid
    · rw [hl] at hs; cases hs
    · rfl
  split
  · rfl
  · rw [hn]
    simp only [Bool.false_eq_true, if_false]

/-- On the streamed transport, a POST naming a session that is already stored
leaves the session map untouched, whatever credentials it carries. -/
theorem ssePostMode_keeps_sessions (cfg : Config) (req : Request)
    (e : ExtractedCreds) (sid : String) (st : ServerState) (c : SessionCredentials)
    (hne : sid ≠ "") (hs : st.sessions.lookup sid = some c) :
    (handlePostSseMode cfg req e (some sid) st).state.sessions = st.sessions := by
  unfold handlePostSseMode
  have htr : (!(truthy (some sid))) = false := by simp [truthy, hne]
  rw [htr]
  simp only [Bool.false_eq_true, if_false]
  dsimp only [Option.getD]
  have hsome : (st.sessions.lookup sid).isSome = true := by rw [hs]; rfl
  split
  · have hg : getSessionCredentials cfg sid e.apiToken e.domain st.sessions =
        Except.ok (c, st.sessions) := by
      unfold getSessionCredentials; rw [hs]
    rw [hg]
    exact ssePostTail_keeps_sessions cfg req sid st hsome
  · have hn : (st.sessions.lookup sid).isNone = false := by rw [hs]; rfl
    rw [hn]
    simp only [Bool.false_eq_true, if_false]
    exact ssePostTail_keeps_sessions cfg req sid st hsome

/-- C3 amended: on the streamed transport, a POST to the message endpoint that
carries credentials for a session identifier that already has a stored
session does NOT rebind it — the session store is left exactly as it was,
the prior binding is kept, and the freshly supplied credentials are
ignored. -/
theorem ssePost_keeps_existing_binding (cfg : Config) (req : Request)
    (fid : String) (body : Option RpcMessage) (tick : Option Nat)
    (st : ServerState) (sid : String) (c : SessionCredentials)
    (hmode : cfg.transportType = TransportType.sse)
    (hsid : resolvedSessionId req = some sid)
    (hne : sid ≠ "")
    (hs : st.sessions.lookup sid = some c) :
    (handlePost cfg req fid body tick st).state.sessions = st.sessions ∧
    (handlePost cfg req fid body tick st).state.sessions.lookup sid = some c := by
  have hmain : (handlePost cfg req fid body tick st).state.sessions = st.sessions := by
    unfold handlePost
    cases hv : verifyRequestAuthentication cfg req with
    | err s m => rfl
    | ok =>
      dsimp only
      rw [hmode, hsid]
      rw [if_neg (by decide : ¬ (TransportType.sse = TransportType.http))]
      exact ssePostMode_keeps_sessions cfg req _ sid st c hne hs
  exact ⟨hmain, by rw [hmain]; exact hs⟩

/-- Witness for C3 amended at the concrete rebinding attempt: session `s`
stays bound to `(t1, d1)` after a POST carrying `(t2, d2)`. -/
theorem ssePost_keeps_existing_binding_app :
    (handlePost cfgSseNoJwt reqRebind "fresh" none none stOneSse).state.sessions =
      stOneSse.sessions ∧
    (handlePost cfgSseNoJwt reqRebind "fresh" none none
        stOneSse).state.sessions.lookup "s" = some (createApiClients "t1" "d1") :=
  ssePost_keeps_existing_binding cfgSseNoJwt reqRebind "fresh" none none stOneSse
    "s" (createApiClients "t1" "d1") rfl rfl (by decide) rfl

/-! ### C8 amended -/

/-- Streamed-mode POST handling with no open transport for the referenced
session id: never dispatched; 404 when the request carries a full credential
pair or a session is already stored under the id, 401 otherwise. -/
theorem ssePostMode_unknown_transport (cfg : Config) (req : Request)
    (e : ExtractedCreds) (sid : String) (st : ServerState)
    (hne : sid ≠ "") (ht : st.transports.lookup sid = none) :
    (handlePostSseMode cfg req e (some sid) st).dispatched = none ∧
    ((handlePostSseMode cfg req e (some sid) st).status = 404 ∨
     (handlePostSseMode cfg req e (some sid) st).status = 401) ∧
    ((truthy e.apiToken && truthy e.domain) = true ∨
     (st.sessions.lookup sid).isSome = true →
      (handlePostSseMode cfg req e (some sid) st).status = 404) := by
  unfold handlePostSseMode
  have htr : (!(truthy (some sid))) = false := by simp [truthy, hne]
  rw [htr]
  simp only [Bool.false_eq_true, if_false]
  dsimp only [Option.getD]
  by_cases hcred : (truthy e.apiToken && truthy e.domain) = true
  · simp only [hcred, if_true]
    unfold handlePostSseTail
    rw [ht]
    exact ⟨rfl, Or.inl rfl, fun _ => rfl⟩
  · have hcred' : (truthy e.apiToken && truthy e.domain) = false := by
      cases hb : (truthy e.apiToken && truthy e.domain)
      · rfl
      · exact absurd hb hcred
    simp only [hcred', Bool.false_eq_true, if_false]
    cases hl : (st.sessions.lookup sid).isNone with
    | false =>
      simp only [hl, Bool.false_eq_true, if_false]
      unfold handlePostSseTail
      rw [ht]
      exact ⟨rfl, Or.inl rfl, fun _ => rfl⟩
    | true =>
      simp only [hl, if_true]
      refine ⟨trivial, Or.inr trivial, ?_⟩
      intro hdisj
      exfalso
      cases hdisj with
      | inl h => exact h
      | inr h =>
        cases ho : st.sessions.lookup sid
        · rw [ho] at h; cases h
        · rw [ho] at hl; cases hl

/-- C8 amended: on the streamed transport, every POST referencing a session
identifier with no open connection is NOT dispatched; it fails with 404 when
it supplies a complete credential pair or a session is already stored for the
identifier (and when the gate passes), and with 401 otherwise. -/
theorem ssePost_unknown_session_behavior (cfg : Config) (req : Request)
    (fid : String) (body : Option RpcMessage) (tick : Option Nat)
    (st : ServerState) (sid : String)
    (hmode : cfg.transportType = TransportType.sse)
    (hsid : resolvedSessionId req = some sid)
    (hne : sid ≠ "")
    (ht : st.transports.lookup sid = none) :
    (handlePost cfg req fid body tick st).dispatched = none ∧
    ((handlePost cfg req fid body tick st).status = 404 ∨
     (handlePost cfg req fid body tick st).status = 401) ∧
    (verifyRequestAuthentication cfg req = AuthRes.ok →
      ((truthy (extractCredentialsFromRequest req).apiToken &&
        truthy (extractCredentialsFromRequest req).domain) = true ∨
       (st.sessions.lookup sid).isSome = true →
        (handlePost cfg req fid body tick st).status = 404)) := by
  unfold handlePost
  cases hv : verifyRequestAuthentication cfg req with
  | err s m =>
    refine ⟨rfl, Or.inr (verifyAuth_err_401 cfg req s m hv), ?_⟩
    intro hok
    cases hok
  | ok =>
    dsimp only
    rw [hmode, hsid]
    rw [if_neg (by decide : ¬ (TransportType.sse = TransportType.http))]
    have h := ssePostMode_unknown_transport cfg req
      (extractCredentialsFromRequest req) sid st hne ht
    exact ⟨h.1, h.2.1, fun _ => h.2.2⟩

/-- Witness for C8 amended at the concrete no-credential POST: status 401
and no dispatch. -/
theorem ssePost_unknown_session_behavior_app :
    (handlePost cfgSseNoJwt reqNoAuthS "fresh" none none emptyState).dispatched =
      none ∧
    ((handlePost cfgSseNoJwt reqNoAuthS "fresh" none none emptyState).status = 404 ∨
     (handlePost cfgSseNoJwt reqNoAuthS "fresh" none none emptyState).status = 401) :=
  have h := ssePost_unknown_session_behavior cfgSseNoJwt reqNoAuthS "fresh" none none
    emptyState "s" rfl rfl (by decide) rfl
  ⟨h.1, h.2.1⟩

/-- The first status written by the stateless reply bridge is always 200 or
202. -/
theorem httpDispatch_status (hasId : Bool) (t : Option Nat) (bound : Nat) :
    (httpDispatch hasId t bound).res.writes.headD 202 = 200 ∨
    (httpDispatch hasId t bound).res.writes.headD 202 = 202 := by
  rw [httpDispatch_writes]
  cases hasId
  · right; rfl
  · cases t with
    | none => right; rfl
    | some k =>
      by_cases hk : k < bound
      · left; simp [hk]
      · right; simp [hk]

/-- A stateless-mode POST answered with 401 changes nothing and dispatches
nothing. -/
theorem httpMode_401_frame (cfg : Config) (e : ExtractedCreds)
    (sidOpt : Option String) (fid : String) (body : Option RpcMessage)
    (tick : Option Nat) (st : ServerState) :
    (handlePostHttpMode cfg e sidOpt fid body tick st).status = 401 →
    (handlePostHttpMode cfg e sidOpt fid body tick st).state = st ∧
    (handlePostHttpMode cfg e sidOpt fid body tick st).dispatched = none := by
  unfold handlePostHttpMode
  split
  · intro _; exact ⟨rfl, rfl⟩
  · dsimp only
    split
    · intro _; exact ⟨rfl, rfl⟩
    · split
      · intro h; simp at h
      · intro h
        dsimp only at h
        exfalso
        rcases httpDispatch_status _ tick timeoutTicks with h2 | h2 <;>
          rw [h2] at h <;> exact absurd h (by decide)

/-- A streamed-mode POST answered with 401 or 400 changes nothing. -/
theorem sseMode_reject_frame (cfg : Config) (req : Request)
    (sidOpt : Option String) (st : ServerState) :
    ((handlePostSseMode cfg req (extractCredentialsFromRequest req) sidOpt st).status = 401 ∨
     (handlePostSseMode cfg req (extractCredentialsFromRequest req) sidOpt st).status = 400) →
    (handlePostSseMode cfg req (extractCredentialsFromRequest req) sidOpt st).state = st := by
  unfold handlePostSseMode
  split
  · intro _; rfl
  · dsimp only
    split
    · rename_i hc
      split
      · rename_i c s1 hg
        unfold handlePostSseTail
        split
        · intro h; rcases h with h | h <;> simp at h
        · split
          · dsimp only
            simp only [hc, if_true]
            split
            · intro h; rcases h with h | h <;> simp at h
            · intro h; rcases h with h | h <;> simp at h
          · intro h; rcases h with h | h <;> simp at h
      · rename_i hg
        unfold handlePostSseTail
        split
        · intro h; rcases h with h | h <;> simp at h
        · split
          · dsimp only
            simp only [hc, if_true]
            split
            · intro h; rcases h with h | h <;> simp at h
            · intro h; rcases h with h | h <;> simp at h
          · intro h; rcases h with h | h <;> simp at h
    · rename_i hc
      split
      · intro _; rfl
      · unfold handlePostSseTail
        split
        · intro h; rcases h with h | h <;> simp at h
        · split
          · dsimp only
            split
            · split
              · intro h; rcases h with h | h <;> simp at h
              · intro h; rcases h with h | h <;> simp at h
            · intro _; rfl
          · intro h; rcases h with h | h <;> simp at h

/-- On the streamed transport, a POST carrying a full credential pair for a
session id with no open connection stores a session and then fails 404. -/
theorem ssePostMode_404_creates (cfg : Config) (req : Request) (sid : String)
    (st : ServerState)
    (hne : sid ≠ "")
    (htok : truthy (extractCredentialsFromRequest req).apiToken = true)
    (hdom : truthy (extractCredentialsFromRequest req).domain = true)
    (ht : st.transports.lookup sid = none) :
    (handlePostSseMode cfg req (extractCredentialsFromRequest req) (some sid) st).status = 404 ∧
    ((handlePostSseMode cfg req (extractCredentialsFromRequest req) (some sid)
        st).state.sessions.lookup sid).isSome = true := by
  unfold handlePostSseMode
  have htr : (!(truthy (some sid))) = false := by simp [truthy, hne]
  rw [htr]
  simp only [Bool.false_eq_true, if_false]
  dsimp only [Option.getD]
  have hcred : (truthy (extractCredentialsFromRequest req).apiToken &&
      truthy (extractCredentialsFromRequest req).domain) = true := by
    rw [htok, hdom]; rfl
  simp only [hcred, if_true]
  rcases getSessionCredentials_truthy_spec cfg sid
      (extractCredentialsFromRequest req).apiToken
      (extractCredentialsFromRequest req).domain st.sessions htok hdom with
    ⟨c, hl, hg⟩ | ⟨hl, hg⟩
  · rw [hg]
    unfold handlePostSseTail
    rw [ht]
    exact ⟨rfl, by rw [hl]; rfl⟩
  · rw [hg]
    unfold handlePostSseTail
    rw [ht]
    refine ⟨rfl, ?_⟩
    rw [lookup_mapSet_self]
    rfl

/-- C7 amended: error-rejected requests leave the session store unchanged on
every path that rejects before credential storage — a GET /sse that does not
open the stream, any POST answered 401, and a streamed-mode POST answered 400
— but NOT universally: a streamed-transport POST carrying a full credential
pair for a session identifier with no open connection first stores a session
under that identifier and only then fails with 404 (the analogous
stateless-mode POST with an unparseable body likewise stores before its
400). -/
theorem rejection_store_effects (cfg : Config) (req : Request) (fid : String)
    (body : Option RpcMessage) (tick : Option Nat) (st : ServerState) :
    ((handleGetSse cfg req fid st).status ≠ 200 →
      (handleGetSse cfg req fid st).state = st) ∧
    ((handlePost cfg req fid body tick st).status = 401 →
      (handlePost cfg req fid body tick st).state = st) ∧
    (cfg.transportType ≠ TransportType.http →
      (handlePost cfg req fid body tick st).status = 400 →
      (handlePost cfg req fid body tick st).state = st) ∧
    (cfg.transportType = TransportType.sse →
      verifyRequestAuthentication cfg req = AuthRes.ok →
      truthy (extractCredentialsFromRequest req).apiToken = true →
      truthy (extractCredentialsFromRequest req).domain = true →
      ∀ sid, resolvedSessionId req = some sid → sid ≠ "" →
        st.transports.lookup sid = none →
        (handlePost cfg req fid body tick st).status = 404 ∧
        ((handlePost cfg req fid body tick st).state.sessions.lookup sid).isSome =
          true) := by
  refine ⟨?_, ?_, ?_, ?_⟩
  · unfold handleGetSse
    dsimp only
    split
    · intro _; rfl
    · split
      · intro _; rfl
      · intro h; exact absurd rfl h
  · unfold handlePost
    cases hv : verifyRequestAuthentication cfg req with
    | err s m => intro _; rfl
    | ok =>
      dsimp only
      split
      · intro h
        exact (httpMode_401_frame cfg _ _ fid body tick st h).1
      · intro h
        exact sseMode_reject_frame cfg req _ st (Or.inl h)
  · intro hmode
    unfold handlePost
    cases hv : verifyRequestAuthentication cfg req with
    | err s m =>
      intro h
      dsimp only at h
      have h401 := verifyAuth_err_401 cfg req s m hv
      omega
    | ok =>
      dsimp only
      rw [if_neg hmode]
      intro h
      exact sseMode_reject_frame cfg req _ st (Or.inr h)
  · intro hmode hok htok hdom sid hsid hne ht
    unfold handlePost
    rw [hok]
    dsimp only
    rw [hmode, hsid]
    rw [if_neg (by decide : ¬ (TransportType.sse = TransportType.http))]
    exact ssePostMode_404_creates cfg req sid st hne htok hdom ht

/-- Witness for C7 amended: the concrete no-credential POST rejected 401
leaves the empty state unchanged. -/
theorem rejection_store_effects_app :
    (handlePost cfgSseNoJwt reqNoAuthS "fresh" none none emptyState).state =
      emptyState :=
  (rejection_store_effects cfgSseNoJwt reqNoAuthS "fresh" none none
    emptyState).2.1 rfl

/-- The session identifier a stateless-mode POST is processed under: the one
the caller supplied when truthy, otherwise the freshly synthesized one. -/
def httpResolvedId (req : Request) (fid : String) : String :=
  if truthy (resolvedSessionId req) then (resolvedSessionId req).getD "" else fid

/-- C5 amended: on the stateless transport a POST without a complete
credential pair is answered 401 with nothing dispatched and nothing changed
(whether the pair is missing or the gate rejects); a POST that passes the
gate and carries a complete pair and a parseable message is dispatched under
the resolved session id, whose stored session is the pre-existing one when
present (its earlier credentials kept) and is otherwise freshly created from
the supplied pair. -/
theorem httpPost_credentials_behavior (cfg : Config) (req : Request)
    (fid : String) (body : Option RpcMessage) (tick : Option Nat)
    (st : ServerState) (hmode : cfg.transportType = TransportType.http) :
    ((truthy (extractCredentialsFromRequest req).apiToken &&
      truthy (extractCredentialsFromRequest req).domain) = false →
      (handlePost cfg req fid body tick st).status = 401 ∧
      (handlePost cfg req fid body tick st).dispatched = none ∧
      (handlePost cfg req fid body tick st).state = st) ∧
    (verifyRequestAuthentication cfg req = AuthRes.ok →
      (truthy (extractCredentialsFromRequest req).apiToken &&
       truthy (extractCredentialsFromRequest req).domain) = true →
      ∀ msg, body = some msg →
        (handlePost cfg req fid body tick st).dispatched =
          some (httpResolvedId req fid) ∧
        ∃ c, (handlePost cfg req fid body tick st).state.sessions.lookup
               (httpResolvedId req fid) = some c ∧
          (st.sessions.lookup (httpResolvedId req fid) = some c ∨
           (st.sessions.lookup (httpResolvedId req fid) = none ∧
            c = createApiClients
              ((extractCredentialsFromRequest req).apiToken.getD "")
              ((extractCredentialsFromRequest req).domain.getD "")))) := by
  constructor
  · intro hpair
    unfold handlePost
    cases hv : verifyRequestAuthentication cfg req with
    | err s m =>
      have h401 := verifyAuth_err_401 cfg req s m hv
      subst h401
      exact ⟨rfl, rfl, rfl⟩
    | ok =>
      dsimp only
      rw [hmode, if_pos rfl]
      unfold handlePostHttpMode
      have hcond : (!(truthy (extractCredentialsFromRequest req).apiToken) ||
          !(truthy (extractCredentialsFromRequest req).domain)) = true := by
        cases hx : truthy (extractCredentialsFromRequest req).apiToken <;>
          cases hy : truthy (extractCredentialsFromRequest req).domain <;>
          simp_all
      simp only [hcond, if_true]
      exact ⟨trivial, trivial, trivial⟩
  · intro hok hpair msg hbody
    simp only [Bool.and_eq_true] at hpair
    obtain ⟨hx, hy⟩ := hpair
    unfold handlePost
    rw [hok]
    dsimp only
    rw [hmode, if_pos rfl]
    unfold handlePostHttpMode
    have hcond : (!(truthy (extractCredentialsFromRequest req).apiToken) ||
        !(truthy (extractCredentialsFromRequest req).domain)) = false := by
      rw [hx, hy]; rfl
    simp only [hcond, Bool.false_eq_true, if_false]
    rw [show (if truthy (resolvedSessionId req) then (resolvedSessionId req).getD ""
          else fid) = httpResolvedId req fid from rfl]
    rcases getSessionCredentials_truthy_spec cfg (httpResolvedId req fid)
        (extractCredentialsFromRequest req).apiToken
        (extractCredentialsFromRequest req).domain st.sessions hx hy with
      ⟨c, hl, hg⟩ | ⟨hl, hg⟩
    · rw [hg, hbody]
      dsimp only
      exact ⟨rfl, c, hl, Or.inl hl⟩
    · rw [hg, hbody]
      dsimp only
      refine ⟨rfl, createApiClients
        ((extractCredentialsFromRequest req).apiToken.getD "")
        ((extractCredentialsFromRequest req).domain.getD ""), ?_, Or.inr ⟨hl, rfl⟩⟩
      exact lookup_mapSet_self _ _ _

/-- A stateless-mode POST carrying credentials and correlating to a fresh id. -/
def reqQ : Request := ⟨some "Bearer t:d", some "q1", none⟩

/-- Witness for C5 amended at a concrete fresh-session POST. -/
theorem httpPost_credentials_behavior_app :
    (handlePost cfgHttpNoJwt reqQ "fresh" (some ⟨some 1⟩) none
        emptyState).dispatched = some "q1" ∧
    ∃ c, (handlePost cfgHttpNoJwt reqQ "fresh" (some ⟨some 1⟩) none
        emptyState).state.sessions.lookup "q1" = some c ∧
      (emptyState.sessions.lookup "q1" = some c ∨
       (emptyState.sessions.lookup "q1" = none ∧ c = createApiClients "t" "d")) :=
  (httpPost_credentials_behavior cfgHttpNoJwt reqQ "fresh" (some ⟨some 1⟩) none
    emptyState rfl).2 rfl rfl ⟨some 1⟩ rfl

end PipedriveMcp
